import Mathlib

/-!
Shallow embedding of `bin/crankd.py` (pymacadmin), the parts needed to check
the frozen claims: the FSEvents dispatch callback, watch registration, handler
resolution, the shell-command handler, the handler-object cache, and the
conditional-restart callback.
-/

namespace Crankd

/-- Embedding of `posixpath.dirname` (what `os.path.dirname` is on macOS):
`i = p.rfind(chr(47)) + 1; head = p[:i]; if head and head != sep*len(head):
head = head.rstrip(sep)`. -/
def dirname (p : String) : String :=
  let cs := p.data
  let tailPart := cs.reverse.takeWhile (fun c => c ≠ '/')
  let head := cs.take (cs.length - tailPart.length)
  let head :=
    if head ≠ [] ∧ ¬ head.all (fun c => c = '/') then
      (head.reverse.dropWhile (fun c => c = '/')).reverse
    else head
  String.mk head

/-- Embedding of Python `s.startswith(k)`: the character sequence of `k` is a
prefix of the character sequence of `s`. -/
def startswith (s k : String) : Bool :=
  List.isPrefixOf k.data s.data

/-- FSEvents flag constant, value from the FSEvents framework headers. -/
def kFSEventStreamEventFlagMustScanSubDirs : Nat := 1

/-- FSEvents flag constant, value from the FSEvents framework headers. -/
def kFSEventStreamEventFlagUserDropped : Nat := 2

/-- FSEvents flag constant, value from the FSEvents framework headers. -/
def kFSEventStreamEventFlagKernelDropped : Nat := 4

/-- Embedding of the `recursive` computation inside `fsevent_callback` for one
event mask. `prev` is the value the Python local `recursive` holds when the
iteration starts (`none` when still unassigned). The three `if` statements are
translated exactly as written in the source: the `else: recursive = False`
clause belongs to the *kernel-dropped* `if` only. -/
def recursive_update (prev : Option Bool) (mask : Nat) : Option Bool :=
  let r0 := prev
  let r1 := if mask &&& kFSEventStreamEventFlagMustScanSubDirs ≠ 0 then some true else r0
  let r2 := if mask &&& kFSEventStreamEventFlagUserDropped ≠ 0 then some true else r1
  let r3 := if mask &&& kFSEventStreamEventFlagKernelDropped ≠ 0 then some true else some false
  let _ := r2
  r3

/-- One handler invocation made by `fsevent_callback`: the watched root passed
as first positional argument, the `path=` keyword argument, the `recursive=`
keyword argument, and the identity of the callback invoked. -/
structure Invocation where
  root : String
  path : String
  recursive : Bool
  handler : Nat
deriving DecidableEq, Repr

/-- Embedding of the dispatch loop body of `fsevent_callback` for a single
event: `path = os.path.dirname(paths[i])`, then every key `k` of
`FS_WATCHED_FILES` with `path.startswith(k)` has each of its callbacks `j`
invoked as `j(k, path=path, recursive=recursive)`. The watched-files dict is
modelled as an association list from root to the ordered callback list. -/
def fired_for_event (watched : List (String × List Nat)) (eventPath : String)
    (recFlag : Bool) : List Invocation :=
  let path := dirname eventPath
  (watched.filter (fun kv => startswith path kv.1)).flatMap
    (fun kv => kv.2.map (fun j => ⟨kv.1, path, recFlag, j⟩))

/-- Embedding of the whole `fsevent_callback` loop over a batch of events,
each event a pair of its path and its flag mask. The Python local `recursive`
is threaded across iterations as an `Option Bool` (`none` = not yet
assigned), exactly as the source leaves it to ordinary local-variable
scoping. -/
def fsevent_callback (watched : List (String × List Nat))
    (events : List (String × Nat)) : List Invocation :=
  (events.foldl
    (fun acc ev =>
      let r := recursive_update acc.1 ev.2
      (r, acc.2 ++ fired_for_event watched ev.1 (r.getD false)))
    ((none : Option Bool), ([] : List Invocation))).2

/-- Modelled from the spec wording of the Watch Index prefix law: `r` is a
path-prefix of `p` when `r` equals `p` or `p` continues `r` with a path
separator (a watch on `/a` matches paths under `/a/b/c`, but `/a` is not a
path-prefix of `/ab`). This is the spec-side notion, to be compared with the
string-prefix test the code actually performs. -/
def specPathPrefixOf (r p : String) : Bool :=
  r = p || startswith p (r ++ "/")

/-- Embedding of the registration core of `add_fs_notification` (the
`try: FS_WATCHED_FILES[path].append(callback) / except KeyError:
FS_WATCHED_FILES[path] = [callback]` block). The dict is an association list;
a present key has the callback appended to its list, an absent key is bound
to the singleton list. -/
def registerWatch (path : String) (cb : Nat) (m : List (String × List Nat)) :
    List (String × List Nat) :=
  match m.lookup path with
  | some _ => m.map (fun kv => if kv.1 = path then (kv.1, kv.2 ++ [cb]) else kv)
  | none => m ++ [(path, [cb])]

/-- Abstract filesystem used by the embedding: `resolve` models
`os.path.realpath(os.path.expanduser(p))` (an absolute, symlink-free path),
`pathExists` models `os.path.exists`, `isdir` models `os.path.isdir`. -/
structure FSModel where
  resolve : String → String
  pathExists : String → Bool
  isdir : String → Bool

/-- Embedding of `add_fs_notification(f_path, callback)`: resolve the path,
raise `AttributeError` if it does not exist, replace a non-directory by its
containing directory, then register the callback under the resulting root. -/
def add_fs_notification (fs : FSModel) (f_path : String) (cb : Nat)
    (m : List (String × List Nat)) : Except String (List (String × List Nat)) :=
  let path := fs.resolve f_path
  if fs.pathExists path = false then
    Except.error ("Cannot add an FSEvent notification: " ++ path ++ " does not exist!")
  else
    let path := if fs.isdir path = false then dirname path else path
    Except.ok (registerWatch path cb m)

/-- Embedding of the `while not os.path.exists(file_name): file_name =
os.path.dirname(file_name)` loop of `add_conditional_restart`, with explicit
fuel standing for the loop bound. -/
def nearest_existing (pathExists : String → Bool) : Nat → String → String
  | 0, p => p
  | fuel + 1, p => if pathExists p then p else nearest_existing pathExists fuel (dirname p)

/-- An event configuration dictionary, restricted to the three handler keys
`get_callable_for_event` tests for. A missing key is `none`. (The source
deliberately does not handle the `class` key in this function.) -/
structure EventConfig where
  command : Option String
  function : Option String
  method : Option (String × String)

/-- The handler variant `get_callable_for_event` selects: the shell command
bound through `do_shell`, the named Python function, or the named
class/method pair bound through the handler-object cache. -/
inductive ResolvedHandler
  | shellCommand (cmd : String)
  | pyFunction (name : String)
  | boundMethod (cls meth : String)
deriving DecidableEq, Repr

/-- Embedding of the `if "command" in event_config / elif "function" /
elif "method" / else raise AttributeError` chain of
`get_callable_for_event`. -/
def get_callable_for_event (name : String) (cfg : EventConfig) :
    Except String ResolvedHandler :=
  match cfg.command with
  | some c => Except.ok (ResolvedHandler.shellCommand c)
  | none =>
    match cfg.function with
    | some f => Except.ok (ResolvedHandler.pyFunction f)
    | none =>
      match cfg.method with
      | some cm => Except.ok (ResolvedHandler.boundMethod cm.1 cm.2)
      | none => Except.error (name ++ " have a class, method, function or command")

/-- The `HANDLER_OBJECTS` cache plus an allocator counter: instances are
identified by the `Nat` allocated when they were constructed, so reference
equality is identity of that number. -/
structure HandlerObjects where
  table : List (String × Nat)
  nextId : Nat
deriving DecidableEq, Repr

/-- Embedding of `get_handler_object(class_name)`: if the class name is not a
key of `HANDLER_OBJECTS`, construct a fresh instance and store it; return the
cache entry for the class name. -/
def get_handler_object (c : String) (s : HandlerObjects) : HandlerObjects × Nat :=
  match s.table.lookup c with
  | some o => (s, o)
  | none => (⟨s.table ++ [(c, s.nextId)], s.nextId + 1⟩, s.nextId)

/-- A Python value as `do_shell` classifies keyword arguments: a callable, a
mapping (something with a callable `keys` attribute, carried here as its
key/value pairs, already strings in the environment-building sense), or any
other value carried as its `str()` image. -/
inductive PyVal
  | scalar (strImage : String)
  | mapping (entries : List (String × String))
  | callableVal
deriving DecidableEq, Repr

/-- Python dict assignment `d[k] = v` on an association-list environment:
replace the binding of a present key, append an absent one. -/
def envSet (env : List (String × String)) (k v : String) : List (String × String) :=
  if (env.lookup k).isSome then
    env.map (fun kv => if kv.1 = k then (k, v) else kv)
  else env ++ [(k, v)]

/-- Python `d.update(m)`: every key/value pair of `m` is assigned into `d` in
order. -/
def envUpdate (env entries : List (String × String)) : List (String × String) :=
  entries.foldl (fun e kv => envSet e kv.1 kv.2) env

/-- One iteration of the `for k in kwargs` loop of `do_shell` building
`child_env`: a callable value is skipped, a mapping is merged in with
`child_env.update`, anything else is stringified under its key. -/
def child_env_step (env : List (String × String)) (kv : String × PyVal) :
    List (String × String) :=
  match kv.2 with
  | PyVal.callableVal => env
  | PyVal.mapping es => envUpdate env es
  | PyVal.scalar s => envSet env kv.1 s

/-- Embedding of the `child_env` construction in `do_shell`: start from
`\x7b'context': context\x7d` and fold the loop body over the keyword
arguments. -/
def build_child_env (context : String) (kwargs : List (String × PyVal)) :
    List (String × String) :=
  kwargs.foldl child_env_step [("context", context)]

/-- The Python exception classes this embedding distinguishes. In Python 2,
`IOError` and `OSError` are distinct sibling classes (both subclasses of
`EnvironmentError`), and `os.stat` signals failure by raising `OSError`. -/
inductive PyExc
  | typeError
  | osError
  | ioError
  | runtimeError
deriving DecidableEq, Repr

/-- Number of conversion specifiers in a `%`-format string: each `%` followed
by a conversion character consumes one argument, `%%` is a literal percent. -/
def countFormatSpecs : List Char → Nat
  | [] => 0
  | ['%'] => 0
  | '%' :: '%' :: rest => countFormatSpecs rest
  | '%' :: _ :: rest => 1 + countFormatSpecs rest
  | _ :: rest => countFormatSpecs rest

/-- Substitution of arguments for conversion specifiers, used when the
argument count matches. -/
def pySubst : List Char → List String → List Char
  | [], _ => []
  | ['%'], _ => ['%']
  | '%' :: '%' :: rest, args => '%' :: pySubst rest args
  | '%' :: _ :: rest, a :: args => a.data ++ pySubst rest args
  | '%' :: _ :: rest, [] => pySubst rest []
  | c :: rest, args => c :: pySubst rest args

/-- Python `fmt % args` with `args` a tuple: a `TypeError` is raised when the
number of conversion specifiers in `fmt` differs from the number of
arguments (too few: not enough arguments; too many: not all arguments
converted). -/
def pyFormat (fmt : String) (args : List String) : Except PyExc String :=
  if countFormatSpecs fmt.data = args.length then
    Except.ok (String.mk (pySubst fmt.data args))
  else Except.error PyExc.typeError

/-- Outcome of `subprocess.call(command, shell=True, env=child_env)`: either
a return code (negative = terminated by that signal) or a raised `OSError`. -/
inductive CallOutcome
  | exited (rc : Int)
  | raisedOS
deriving DecidableEq, Repr

/-- Embedding of `do_shell(command, context=None, **kwargs)`. The result is
the list of log messages emitted on a normal return, or the Python exception
that escapes the function. Each `logging` call's `%`-formatting is performed
with `pyFormat`, exactly on the format strings and argument tuples of the
source. -/
def do_shell (command context : String) (kwargs : List (String × PyVal))
    (outcome : CallOutcome) : Except PyExc (List String) := do
  let l0 ← pyFormat ("%s: executing %s") [context, command]
  let _env := build_child_env context kwargs
  match outcome with
  | CallOutcome.exited rc =>
    if rc = 0 then do
      let l1 ← pyFormat ("`%s` returned %d") [command, toString rc]
      pure [l0, l1]
    else if rc < 0 then do
      let l1 ← pyFormat ("`%s` was terminated by signal %d") [command, toString (-rc)]
      pure [l0, l1]
    else do
      let l1 ← pyFormat ("`%s` returned %d") [command, toString rc]
      pure [l0, l1]
  | CallOutcome.raisedOS => do
    let l1 ← pyFormat ("Got an exception when executing %s:") [command, "OSError"]
    pure [l0, l1]

/-- Outcome of the `os.stat(file_name).st_mtime` call inside `cond_restart`:
a modification time, or a raised exception (for `os.stat` in Python 2 this is
`OSError`). -/
inductive StatOutcome
  | statOk (mtime : Int)
  | statRaise (e : PyExc)
deriving DecidableEq, Repr

/-- What a run of `cond_restart` does when it returns normally: request a
restart with the given reason, or nothing. -/
inductive RestartDecision
  | restartWith (reason : String)
  | noRestart
deriving DecidableEq, Repr

/-- Embedding of the `cond_restart` closure created by
`add_conditional_restart`: re-stat the recorded file, restart when the
modification time differs from the captured baseline, and catch only
`(IOError, RuntimeError)` — any other exception class escapes. -/
def cond_restart (file_name : String) (origStat : Int) (reason : String)
    (st : StatOutcome) : Except PyExc RestartDecision :=
  match st with
  | StatOutcome.statOk m =>
    if m ≠ origStat then Except.ok (RestartDecision.restartWith reason)
    else Except.ok RestartDecision.noRestart
  | StatOutcome.statRaise e =>
    if e = PyExc.ioError ∨ e = PyExc.runtimeError then do
      let msg ← pyFormat ("Exception while checking %s: %s") [file_name, "exc"]
      pure (RestartDecision.restartWith msg)
    else Except.error e

/-- Embedding of the baseline capture of `add_conditional_restart`: resolve
the file, walk up to the nearest existing ancestor, and record that path with
its current modification time. -/
def add_conditional_restart (fs : FSModel) (mtimeOf : String → Int) (fuel : Nat)
    (file_name : String) : String × Int :=
  let f := nearest_existing fs.pathExists fuel (fs.resolve file_name)
  (f, mtimeOf f)

/-- A small concrete filesystem used to instantiate the registration
theorems: `/tmp` is a directory, `/tmp/f` a file, nothing else exists, and
resolution is the identity. -/
def sampleFS : FSModel :=
  ⟨fun p => p, fun p => decide (p = "/tmp/f" ∨ p = "/tmp"), fun p => decide (p = "/tmp")⟩

/-! ## Lemmas about association-list lookup under the operations above -/

theorem lookup_map_append_cb (m : List (String × List Nat)) (r : String) (cb : Nat)
    (l : List Nat) (h : m.lookup r = some l) :
    (m.map (fun kv => if kv.1 = r then (kv.1, kv.2 ++ [cb]) else kv)).lookup r
      = some (l ++ [cb]) := by
  induction m with
  | nil => simp at h
  | cons kv t ih =>
    obtain ⟨a, b⟩ := kv
    by_cases ha : a = r
    · subst ha
      simp only [List.lookup_cons_self] at h
      cases h
      simp
    · have hra : (r == a) = false := beq_eq_false_iff_ne.mpr (fun hh => ha hh.symm)
      simp only [List.lookup_cons, hra] at h
      simpa [List.lookup_cons, hra, if_neg ha] using ih h

theorem lookup_map_append_cb_ne (m : List (String × List Nat)) (r : String) (cb : Nat)
    (k : String) (h : k ≠ r) :
    (m.map (fun kv => if kv.1 = r then (kv.1, kv.2 ++ [cb]) else kv)).lookup k
      = m.lookup k := by
  induction m with
  | nil => simp
  | cons kv t ih =>
    obtain ⟨a, b⟩ := kv
    by_cases ha : a = r
    · subst ha
      have hka : (k == a) = false := beq_eq_false_iff_ne.mpr h
      simp [List.lookup_cons, hka, ih]
    · by_cases hk : k = a
      · subst hk
        simp [List.lookup_cons, if_neg ha]
      · have hka : (k == a) = false := beq_eq_false_iff_ne.mpr hk
        simp [List.lookup_cons, hka, if_neg ha, ih]

theorem lookup_map_set (e : List (String × String)) (k v : String)
    (w : String) (h : e.lookup k = some w) :
    (e.map (fun kv => if kv.1 = k then (k, v) else kv)).lookup k = some v := by
  induction e with
  | nil => simp at h
  | cons kv t ih =>
    obtain ⟨a, b⟩ := kv
    by_cases ha : a = k
    · subst ha
      simp
    · have hka : (k == a) = false := beq_eq_false_iff_ne.mpr (fun hh => ha hh.symm)
      simp only [List.lookup_cons, hka] at h
      simpa [List.lookup_cons, hka, if_neg ha] using ih h

theorem lookup_envSet_self (e : List (String × String)) (k v : String) :
    (envSet e k v).lookup k = some v := by
  unfold envSet
  cases h : e.lookup k with
  | none =>
    simp [h, List.lookup_append]
  | some w =>
    simp only [h, Option.isSome_some, if_true]
    exact lookup_map_set e k v w h

/-! ## Claim theorems -/

/-- C4: `get_handler_object` is an idempotent cached singleton: calling it a
second time with the same class name returns the identical instance (the same
allocated identity) and leaves the cache unchanged, so two event specs naming
the same class never obtain two separate instances. -/
theorem get_handler_object_c4 (s : HandlerObjects) (c : String) :
    get_handler_object c ((get_handler_object c s).1) = get_handler_object c s := by
  unfold get_handler_object
  cases h : s.table.lookup c with
  | some o => simp [h]
  | none =>
    have h2 : (s.table ++ [(c, s.nextId)]).lookup c = some s.nextId := by
      simp [List.lookup_append, h]
    simp [h, h2]

/-- C5: `add_fs_notification` resolves the path first; a resolved path that
does not exist makes registration fail with an error (and yields no updated
watch map), a resolved path that exists but is not a directory is replaced by
its containing directory as the recorded watch root, and a resolved directory
is recorded as-is. -/
theorem add_fs_notification_c5 (fs : FSModel) (p : String) (cb : Nat)
    (m : List (String × List Nat)) :
    (fs.pathExists (fs.resolve p) = false →
      add_fs_notification fs p cb m =
        Except.error ("Cannot add an FSEvent notification: " ++ fs.resolve p ++ " does not exist!"))
    ∧ (fs.pathExists (fs.resolve p) = true → fs.isdir (fs.resolve p) = false →
      add_fs_notification fs p cb m = Except.ok (registerWatch (dirname (fs.resolve p)) cb m))
    ∧ (fs.pathExists (fs.resolve p) = true → fs.isdir (fs.resolve p) = true →
      add_fs_notification fs p cb m = Except.ok (registerWatch (fs.resolve p) cb m)) := by
  unfold add_fs_notification
  exact ⟨fun h => by simp [h], fun h h2 => by simp [h, h2], fun h h2 => by simp [h, h2]⟩

/-- Witness for C5: on the concrete sample filesystem, registering the file
`/tmp/f` records its parent directory, and registering the missing `/nope`
fails with the error message. -/
theorem add_fs_notification_c5_witness :
    add_fs_notification sampleFS "/tmp/f" 7 [] =
      Except.ok (registerWatch (dirname ("/tmp/f")) 7 [])
    ∧ add_fs_notification sampleFS "/nope" 7 [] =
      Except.error ("Cannot add an FSEvent notification: /nope does not exist!") := by
  refine ⟨(add_fs_notification_c5 sampleFS ("/tmp/f") 7 []).2.1 (by decide) (by decide), ?_⟩
  exact ((add_fs_notification_c5 sampleFS ("/nope") 7 []).1 (by decide)).trans
    (congrArg Except.error (by decide))

/-- C6: watch registration preserves all earlier registrations: a new
callback on a root is appended at the end of that root's ordered callback
list (a fresh root gets the singleton list), and every other root's entry is
unchanged — nothing is overwritten or removed. -/
theorem registerWatch_c6 (m : List (String × List Nat)) (r : String) (cb : Nat) :
    (registerWatch r cb m).lookup r = some (((m.lookup r).getD []) ++ [cb])
    ∧ ∀ k, k ≠ r → (registerWatch r cb m).lookup k = m.lookup k := by
  constructor
  · unfold registerWatch
    cases h : m.lookup r with
    | none => simp [h, List.lookup_append]
    | some l =>
      simp only [h, Option.getD_some]
      exact lookup_map_append_cb m r cb l h
  · intro k hk
    unfold registerWatch
    cases h : m.lookup r with
    | none =>
      have hkr : (k == r) = false := beq_eq_false_iff_ne.mpr hk
      simp [List.lookup_append, hkr, List.lookup_cons]
    | some l => exact lookup_map_append_cb_ne m r cb k hk

/-- Witness for C6: appending a second callback on `/tmp` keeps the first
callback ahead of it and leaves the `/var` entry untouched. -/
theorem registerWatch_c6_witness :
    (registerWatch ("/tmp") 8 [("/tmp", [7]), ("/var", [1])]).lookup ("/tmp") = some [7, 8]
    ∧ (registerWatch ("/tmp") 8 [("/tmp", [7]), ("/var", [1])]).lookup ("/var") = some [1] := by
  constructor
  · exact ((registerWatch_c6 [("/tmp", [7]), ("/var", [1])] ("/tmp") 8).1).trans (by decide)
  · exact ((registerWatch_c6 [("/tmp", [7]), ("/var", [1])] ("/tmp") 8).2 ("/var") (by decide)).trans
      (by decide)

/-- C8: an event configuration with none of the `command`, `function`,
`method` keys makes `get_callable_for_event` fail with the `AttributeError`
of the source instead of producing a handler. -/
theorem get_callable_for_event_c8 (name : String) :
    get_callable_for_event name ⟨none, none, none⟩ =
      Except.error (name ++ " have a class, method, function or command") := rfl

/-- C10: when more than one of the `command`, `function`, `method` keys is
present, `get_callable_for_event` reports no error and silently selects one
variant by fixed precedence: `command` first, then `function`, then `method`;
the remaining variants are ignored. -/
theorem get_callable_for_event_c10 :
    (∀ (name c : String) (f : Option String) (mth : Option (String × String)),
      get_callable_for_event name ⟨some c, f, mth⟩ =
        Except.ok (ResolvedHandler.shellCommand c))
    ∧ (∀ (name f : String) (mth : Option (String × String)),
      get_callable_for_event name ⟨none, some f, mth⟩ =
        Except.ok (ResolvedHandler.pyFunction f))
    ∧ (∀ (name : String) (cm : String × String),
      get_callable_for_event name ⟨none, none, some cm⟩ =
        Except.ok (ResolvedHandler.boundMethod cm.1 cm.2)) :=
  ⟨fun _ _ _ _ => rfl, fun _ _ _ => rfl, fun _ _ => rfl⟩

/-- C1: the `recursive` flag in `fsevent_callback` is NOT true whenever
must-scan-subdirectories or a user-side overflow is flagged: the dangling
`else` ties `recursive = False` to the kernel-dropped test alone, so the
value a handler receives is exactly the kernel-dropped bit, and events
flagged only with must-scan-subdirectories and/or user-side overflow reach
the handler with `recursive = false`, contradicting the claim. -/
theorem fsevent_recursive_c1 :
    (∀ (prev : Option Bool) (mask : Nat),
      recursive_update prev mask =
        some (decide (mask &&& kFSEventStreamEventFlagKernelDropped ≠ 0)))
    ∧ fsevent_callback [("/", [0])]
        [("/etc/hosts", kFSEventStreamEventFlagMustScanSubDirs)]
      = [⟨"/", "/etc", false, 0⟩]
    ∧ fsevent_callback [("/", [0])]
        [("/etc/hosts", kFSEventStreamEventFlagUserDropped)]
      = [⟨"/", "/etc", false, 0⟩]
    ∧ fsevent_callback [("/", [0])]
        [("/etc/hosts",
          kFSEventStreamEventFlagMustScanSubDirs ||| kFSEventStreamEventFlagUserDropped)]
      = [⟨"/", "/etc", false, 0⟩]
    ∧ fsevent_callback [("/", [0])]
        [("/etc/hosts", kFSEventStreamEventFlagKernelDropped)]
      = [⟨"/", "/etc", true, 0⟩] := by
  refine ⟨fun prev mask => ?_, by decide, by decide, by decide, by decide⟩
  unfold recursive_update
  by_cases h : mask &&& kFSEventStreamEventFlagKernelDropped ≠ 0 <;> simp [h]

/-- C2 (amended): for a dispatched change with path `P`, a watch on root `R`
has all of its handlers invoked with `(root = R, path = dirname P, recursive)`
exactly when `R` is a *string* prefix of `dirname P` (Python
`str.startswith`), and every matching root fires, not only the longest or an
exact match; no invocation occurs for a root that is not a string prefix. -/
theorem fired_for_event_c2 (watched : List (String × List Nat)) (p : String)
    (recFlag : Bool) :
    (∀ r hs, (r, hs) ∈ watched → startswith (dirname p) r = true →
      ∀ j ∈ hs,
        (⟨r, dirname p, recFlag, j⟩ : Invocation) ∈ fired_for_event watched p recFlag)
    ∧ (∀ inv ∈ fired_for_event watched p recFlag,
        startswith (dirname p) inv.root = true ∧ inv.path = dirname p
        ∧ inv.recursive = recFlag ∧ ∃ hs, (inv.root, hs) ∈ watched ∧ inv.handler ∈ hs) := by
  constructor
  · intro r hs hmem hpre j hj
    simp only [fired_for_event, List.mem_flatMap, List.mem_filter, List.mem_map]
    exact ⟨(r, hs), ⟨hmem, hpre⟩, j, hj, rfl⟩
  · intro inv hinv
    simp only [fired_for_event, List.mem_flatMap, List.mem_filter, List.mem_map] at hinv
    obtain ⟨kv, ⟨hmem, hpre⟩, j, hj, rfl⟩ := hinv
    exact ⟨hpre, rfl, rfl, kv.2, by simpa using hmem, hj⟩

/-- Witness for C2 (amended): with watches on `/a` and `/b`, the change
`/a/x/y` fires the `/a` handler with path `/a/x`. -/
theorem fired_for_event_c2_witness :
    (⟨"/a", "/a/x", true, 0⟩ : Invocation) ∈
      fired_for_event [("/a", [0]), ("/b", [1])] ("/a/x/y") true :=
  (fired_for_event_c2 [("/a", [0]), ("/b", [1])] ("/a/x/y") true).1 ("/a") [0]
    (by decide) (by decide) 0 (by decide)

/-- Counterexample to C2 as stated: a watch on `/a` fires for the change
`/ab/x`, whose containing directory `/ab` does not have `/a` as a
path-prefix — the code tests a plain string prefix, not a path-component
prefix. -/
theorem fired_for_event_c2_counterexample :
    specPathPrefixOf ("/a") (dirname ("/ab/x")) = false
    ∧ (⟨"/a", "/ab", false, 0⟩ : Invocation) ∈
      fired_for_event [("/a", [0])] ("/ab/x") false := by
  decide

/-- C3: `do_shell` returns normally (with its log lines) on a zero exit
status, a nonzero exit status and a termination by signal, but an `OSError`
raised by `subprocess.call` is not swallowed: the `except OSError` handler
formats `(command, exc)` through a string with a single conversion
specifier, which itself raises a `TypeError` that escapes to the caller. -/
theorem do_shell_c3 (command context : String) (kwargs : List (String × PyVal)) :
    (do_shell command context kwargs (CallOutcome.exited 0)).isOk = true
    ∧ (do_shell command context kwargs (CallOutcome.exited 1)).isOk = true
    ∧ (do_shell command context kwargs (CallOutcome.exited (-9))).isOk = true
    ∧ do_shell command context kwargs CallOutcome.raisedOS =
        Except.error PyExc.typeError :=
  ⟨rfl, rfl, rfl, rfl⟩

/-- C7: the `cond_restart` callback of `add_conditional_restart` restarts on
a modification-time mismatch and swallows `IOError` and `RuntimeError`, but a
failing `os.stat` raises `OSError` in Python 2, which its
`except (IOError, RuntimeError)` clause does not catch: the stat failure
propagates as a crash instead of triggering a restart, contradicting the
claim. -/
theorem cond_restart_c7 (file_name reason : String) (origStat : Int) :
    cond_restart file_name origStat reason (StatOutcome.statOk origStat) =
        Except.ok RestartDecision.noRestart
    ∧ cond_restart file_name origStat reason (StatOutcome.statOk (origStat + 1)) =
        Except.ok (RestartDecision.restartWith reason)
    ∧ (cond_restart file_name origStat reason (StatOutcome.statRaise PyExc.ioError)).isOk = true
    ∧ (cond_restart file_name origStat reason (StatOutcome.statRaise PyExc.runtimeError)).isOk = true
    ∧ cond_restart file_name origStat reason (StatOutcome.statRaise PyExc.osError) =
        Except.error PyExc.osError := by
  refine ⟨by simp [cond_restart], ?_, rfl, rfl, rfl⟩
  have h : origStat + 1 ≠ origStat := by omega
  simp [cond_restart, h]

/-- C9: the environment `do_shell` hands to the spawned command is built by
folding the context keyword arguments over the initial
`context` binding: a non-callable scalar is stringified and assigned under
its own key (and is then found in the environment under that key), a mapping
value has its key/value pairs merged in directly by dict update, and a
callable value contributes nothing. -/
theorem do_shell_env_c9 :
    (∀ (ctx : String) (kwargs : List (String × PyVal)) (k s : String),
      build_child_env ctx (kwargs ++ [(k, PyVal.scalar s)])
        = envSet (build_child_env ctx kwargs) k s)
    ∧ (∀ (ctx : String) (kwargs : List (String × PyVal)) (k s : String),
      (build_child_env ctx (kwargs ++ [(k, PyVal.scalar s)])).lookup k = some s)
    ∧ (∀ (ctx : String) (kwargs : List (String × PyVal)) (k : String)
        (es : List (String × String)),
      build_child_env ctx (kwargs ++ [(k, PyVal.mapping es)])
        = envUpdate (build_child_env ctx kwargs) es)
    ∧ (∀ (ctx : String) (kwargs : List (String × PyVal)) (k : String),
      build_child_env ctx (kwargs ++ [(k, PyVal.callableVal)])
        = build_child_env ctx kwargs) := by
  refine ⟨fun ctx kwargs k s => ?_, fun ctx kwargs k s => ?_,
    fun ctx kwargs k es => ?_, fun ctx kwargs k => ?_⟩
  · simp [build_child_env, List.foldl_append, child_env_step]
  · simpa [build_child_env, List.foldl_append, child_env_step]
      using lookup_envSet_self (build_child_env ctx kwargs) k s
  · simp [build_child_env, List.foldl_append, child_env_step]
  · simp [build_child_env, List.foldl_append, child_env_step]

end Crankd
